import Mathlib

/-!
Verification development for the `portscope` port scanner.

The Rust sources are shallowly embedded: pure decision logic becomes Lean
functions, machine integers become `Nat` (with saturating casts made
explicit), `f64` arithmetic is modelled by exact rational arithmetic over
`ℚ`, fallible functions return `Except`/`Option`, and the network
environment (connection outcomes, received raw packets, the current clock)
is passed in explicitly as data.
-/

namespace PortScope

/-- `PortStatus` from src/scanner/results.rs: the closed status enumeration. -/
inductive PortStatus where
  | Open
  | Closed
  | Filtered
  | Error
deriving DecidableEq, Repr

/-- `ScanType` from src/cli.rs: the technique enumeration. -/
inductive ScanType where
  | Syn
  | Connect
  | Udp
  | Fin
  | Xmas
  | Null
deriving DecidableEq, Repr

/-! TCP flag bit values, as in `pnet::packet::tcp::TcpFlags`. -/

def finFlag : Nat := 1
def synFlag : Nat := 2
def rstFlag : Nat := 4
def pshFlag : Nat := 8
def ackFlag : Nat := 16
def urgFlag : Nat := 32

/-- Flag byte sent by the XMAS technique: FIN | PSH | URG (src/scanner/tcp.rs). -/
def xmasFlags : Nat := finFlag.lor (pshFlag.lor urgFlag)

/-- A raw TCP reply as observed by `perform_raw_scan`'s receive loop:
source/destination ports of the reply segment, whether it arrived from the
scanned target address, and its TCP flag byte. -/
structure RawPacket where
  srcPort : Nat
  dstPort : Nat
  fromTarget : Bool
  flags : Nat
deriving DecidableEq, Repr

/-- Whether a received packet is "our response" per the check in
`perform_raw_scan` (src/scanner/tcp.rs lines 175–177): reply source equals
the scanned port, reply destination equals our ephemeral source port, and
the sender is the target address. -/
def pktMatches (port srcPort : Nat) (p : RawPacket) : Bool :=
  p.srcPort == port && p.dstPort == srcPort && p.fromTarget

/-- Bit test `flags & bit != 0`. -/
def hasFlag (flags bit : Nat) : Bool := flags.land bit != 0

/-- Decision taken by `perform_raw_scan` for one matching reply
(src/scanner/tcp.rs lines 179–193): SYN and ACK both set → Open; else RST
set → Closed; else, for a non-SYN probe flag byte, → Open; otherwise keep
waiting (`none`). -/
def classifyReply (scanFlags replyFlags : Nat) : Option PortStatus :=
  if hasFlag replyFlags synFlag && hasFlag replyFlags ackFlag then
    some .Open
  else if hasFlag replyFlags rstFlag then
    some .Closed
  else if scanFlags ≠ synFlag then
    some .Open
  else
    none

/-- The receive loop of `perform_raw_scan` over the list of replies that
arrive within the timeout window, in arrival order: the first matching
reply that yields a decision determines the status; if the window closes
with no decision, SYN probes report Filtered and the stealth probes (FIN,
XMAS, NULL) report Open (src/scanner/tcp.rs lines 171–212). -/
def rawScanResult (scanFlags port srcPort : Nat) : List RawPacket → PortStatus
  | [] => if scanFlags = synFlag then .Filtered else .Open
  | p :: rest =>
    if pktMatches port srcPort p then
      match classifyReply scanFlags p.flags with
      | some s => s
      | none => rawScanResult scanFlags port srcPort rest
    else
      rawScanResult scanFlags port srcPort rest

/-- First reply in the window that passes the matching filter. -/
def firstMatching (port srcPort : Nat) (pkts : List RawPacket) : Option RawPacket :=
  (pkts.filter (pktMatches port srcPort)).head?

/-- A SYN+ACK reply: both SYN and ACK bits set. -/
def isSynAck (flags : Nat) : Bool := hasFlag flags synFlag && hasFlag flags ackFlag

/-- An RST reply: RST bit set and not simultaneously SYN+ACK (a real TCP
reset never carries SYN, and the code tests the SYN+ACK branch first). -/
def isRstReply (flags : Nat) : Bool := hasFlag flags rstFlag && !(isSynAck flags)

/-! ## Connect-scan primitives (src/scanner/tcp.rs)

A connection attempt is modelled by its outcome, supplied by the
environment: the attempt succeeded, was refused, failed with another error,
or hit its timeout. -/

inductive ConnOutcome where
  | ok
  | refused
  | otherErr
  | timedOut
deriving DecidableEq, Repr

/-- `connect_scan` (src/scanner/tcp.rs lines 12–29): success → Open,
refusal → Closed, any other error → Filtered, timeout → Filtered. -/
def connectScan : ConnOutcome → PortStatus
  | .ok => .Open
  | .refused => .Closed
  | .otherErr => .Filtered
  | .timedOut => .Filtered

/-- `fast_connect_scan` (src/scanner/tcp.rs lines 32–63), as a function of
the timeout and the outcomes of the (at most two) connection attempts.
Besides the status it returns the list of per-attempt timeout budgets (ms)
actually used, so that budget claims are statable:
first attempt with `min(timeout_ms, 300)`; success → Open, refusal →
Closed; any other error → one retry with the full `timeout_ms`; first
attempt timing out → one retry with `timeout_ms.saturating_sub(300)`;
on either retry: success → Open, timeout → Filtered, and any error
(refused or not) → Closed. -/
def fastConnectScan (timeoutMs : Nat) (o1 o2 : ConnOutcome) :
    PortStatus × List Nat :=
  let b1 := min timeoutMs 300
  match o1 with
  | .ok => (.Open, [b1])
  | .refused => (.Closed, [b1])
  | .otherErr =>
    let b2 := timeoutMs
    match o2 with
    | .ok => (.Open, [b1, b2])
    | .timedOut => (.Filtered, [b1, b2])
    | _ => (.Closed, [b1, b2])
  | .timedOut =>
    let b2 := timeoutMs - 300
    match o2 with
    | .ok => (.Open, [b1, b2])
    | .timedOut => (.Filtered, [b1, b2])
    | _ => (.Closed, [b1, b2])

/-- Outcome of `perform_raw_scan` as seen by its callers: either a status,
or an error (raw channel creation failure, or an IPv6 target). -/
def RawOutcome := Except Unit PortStatus

/-- `syn_scan` (src/scanner/tcp.rs lines 65–74): without root privilege it
falls back to a plain `connect_scan`; with root it runs the raw SYN probe
and maps a raw-layer error to `PortStatus::Error`. -/
def synScan (isRoot : Bool) (co : ConnOutcome) (raw : Except Unit PortStatus) :
    PortStatus :=
  if isRoot then
    match raw with
    | .ok s => s
    | .error _ => .Error
  else
    connectScan co

/-- `fin_scan` (src/scanner/tcp.rs lines 76–85): without root privilege it
returns `PortStatus::Error`; with root it runs the raw FIN probe. -/
def finScan (isRoot : Bool) (raw : Except Unit PortStatus) : PortStatus :=
  if isRoot then
    match raw with
    | .ok s => s
    | .error _ => .Error
  else
    .Error

/-- `xmas_scan` (src/scanner/tcp.rs lines 87–97): same privilege behavior
as `fin_scan`, probing with FIN|PSH|URG. -/
def xmasScan (isRoot : Bool) (raw : Except Unit PortStatus) : PortStatus :=
  if isRoot then
    match raw with
    | .ok s => s
    | .error _ => .Error
  else
    .Error

/-- `null_scan` (src/scanner/tcp.rs lines 99–108): same privilege behavior
as `fin_scan`, probing with no flags. -/
def nullScan (isRoot : Bool) (raw : Except Unit PortStatus) : PortStatus :=
  if isRoot then
    match raw with
    | .ok s => s
    | .error _ => .Error
  else
    .Error

/-! ## IP addresses and classification -/

/-- An IP address: four IPv4 octets, or the eight 16-bit segments of an
IPv6 address. -/
inductive IpAddr where
  | v4 (a b c d : Nat)
  | v6 (segs : List Nat)
deriving DecidableEq, Repr

/-- `is_private_ip` (src/scanner/mod.rs lines 35–56): RFC1918 ranges,
IPv4 loopback 127/8, IPv4 link-local 169.254/16; IPv6 loopback `::1`,
link-local `fe80::` and the unique-local first segments `fc00`/`fd00`. -/
def isPrivateIp : IpAddr → Bool
  | .v4 a b _ _ =>
    a == 10 ||
    (a == 172 && decide (16 ≤ b) && decide (b ≤ 31)) ||
    (a == 192 && b == 168) ||
    a == 127 ||
    (a == 169 && b == 254)
  | .v6 segs =>
    segs == [0, 0, 0, 0, 0, 0, 0, 1] ||
    segs.headD 0 == 0xfe80 ||
    segs.headD 0 == 0xfc00 ||
    segs.headD 0 == 0xfd00

/-- `NetworkType` from src/adaptive.rs. -/
inductive NetworkType where
  | LocalHost
  | PrivateLAN
  | PublicInternet
  | CloudProvider
deriving DecidableEq, Repr

/-- `is_cloud_provider_ip` (src/adaptive.rs lines 437–447). -/
def isCloudProviderIp (a b : Nat) : Bool :=
  (a == 3 && decide (b ≤ 7)) ||
  a == 13 ||
  a == 15 ||
  (a == 34 && decide (64 ≤ b) && decide (b ≤ 127)) ||
  a == 20 ||
  a == 40

/-- `classify_network` (src/adaptive.rs lines 401–435): loopback →
LocalHost; RFC1918 → PrivateLAN; the cloud table → CloudProvider; all
other IPv4 → PublicInternet. IPv6: loopback → LocalHost; `fe80` or a
first segment in `fc00::/7` → PrivateLAN; else PublicInternet. -/
def classifyNetwork : IpAddr → NetworkType
  | .v4 a b _ _ =>
    if a == 127 then .LocalHost
    else if a == 10 ||
            (a == 172 && decide (16 ≤ b) && decide (b ≤ 31)) ||
            (a == 192 && b == 168) then .PrivateLAN
    else if isCloudProviderIp a b then .CloudProvider
    else .PublicInternet
  | .v6 segs =>
    if segs == [0, 0, 0, 0, 0, 0, 0, 1] then .LocalHost
    else if (segs.headD 0) == 0xfe80 || (segs.headD 0).land 0xfe00 == 0xfc00 then
      .PrivateLAN
    else .PublicInternet

/-- One technique probe primitive, as dispatched per port. -/
inductive ProbePrimitive where
  | synP
  | connectP
  | fastConnectP
  | udpP
  | finP
  | xmasP
  | nullP
deriving DecidableEq, Repr

/-- Technique dispatch in the per-port task of `Scanner::scan_single_host`
(src/scanner/mod.rs lines 214–228): the Connect technique uses
`fast_connect_scan` exactly for private targets, `connect_scan`
otherwise; the other techniques map to their primitives directly. -/
def dispatchProbe (t : ScanType) (ip : IpAddr) : ProbePrimitive :=
  match t with
  | .Syn => .synP
  | .Connect => if isPrivateIp ip then .fastConnectP else .connectP
  | .Udp => .udpP
  | .Fin => .finP
  | .Xmas => .xmasP
  | .Null => .nullP

/-! ## Target parsing (src/network.rs) -/

/-- One comma-separated atom of a target specification, after textual IP
parsing: a single address or an IPv4 range given by the `u32` values of
its endpoints. -/
inductive TargetAtom where
  | single (ip : Nat)
  | range (startIp endIp : Nat)
deriving DecidableEq, Repr

/-- `parse_ip_range` (src/network.rs lines 53–91) on an IPv4 pair, with
addresses as their `u32` values: rejects `start > end`, rejects
`end - start > 10000`, and otherwise yields the inclusive enumeration. -/
def parseIpRange (startIp endIp : Nat) : Except String (List Nat) :=
  if startIp > endIp then
    .error "Start IP must be less than or equal to end IP"
  else if endIp - startIp > 10000 then
    .error "IP range too large (max 10000 addresses)"
  else
    .ok (List.range' startIp (endIp - startIp + 1))

/-- Expansion of one atom inside `parse_targets` (src/network.rs lines
8–18): a single address yields itself, a range atom is expanded by
`parse_ip_range`; any error aborts. -/
def parseAtom : TargetAtom → Except String (List Nat)
  | .single ip => .ok [ip]
  | .range s e => parseIpRange s e

/-- The accumulation loop of `parse_targets`: expand the atoms in order,
aborting on the first error. -/
def parseTargetsAux : List TargetAtom → Except String (List Nat)
  | [] => .ok []
  | a :: rest => do
    let hd ← parseAtom a
    let tl ← parseTargetsAux rest
    .ok (hd ++ tl)

/-- Removal of consecutive duplicates, as `Vec::dedup` does. -/
def dedupConsec : List Nat → List Nat
  | [] => []
  | [x] => [x]
  | x :: y :: rest =>
    if x == y then dedupConsec (y :: rest) else x :: dedupConsec (y :: rest)

/-- `parse_targets` (src/network.rs lines 5–24) over the expanded atoms:
collect all expansions (any failure aborts the whole parse, yielding no
partial list), then sort and deduplicate. -/
def parseTargets (atoms : List TargetAtom) : Except String (List Nat) := do
  let l ← parseTargetsAux atoms
  .ok (dedupConsec (l.mergeSort (· ≤ ·)))

/-! ## Adaptive learning store (src/adaptive.rs)

`f64` values are modelled by exact rationals; Rust's saturating,
truncating `as u16` / `as u64` casts from `f64` are made explicit. -/

/-- Rust `as u16` applied to a nonnegative-or-clamped float: truncate
toward zero and saturate into the `u16` range. -/
def f64ToU16 (q : ℚ) : Nat := min (max 0 ⌊q⌋).toNat 65535

/-- Rust `as u64` applied to a float: truncate toward zero and saturate
into the `u64` range. -/
def f64ToU64 (q : ℚ) : Nat := min (max 0 ⌊q⌋).toNat (2 ^ 64 - 1)

/-- `NetworkProfile` (src/adaptive.rs lines 8–17). -/
structure NetworkProfile where
  networkType : NetworkType
  avgResponseTime : ℚ
  timeoutRate : ℚ
  optimalParallelism : Nat
  optimalRateLimit : Nat
  lastUpdated : Nat
  scanCount : Nat
deriving DecidableEq, Repr

/-- `PortIntelligence` (src/adaptive.rs lines 27–35). -/
structure PortIntelligence where
  port : Nat
  foundCount : Nat
  successRate : ℚ
  avgResponseTime : ℚ
  serviceConfidence : ℚ
  lastSeen : Nat
deriving DecidableEq, Repr

/-- `ResponsePattern` (src/adaptive.rs lines 48–54). -/
structure ResponsePattern where
  rstTiming : ℚ
  synAckTiming : ℚ
  timeoutPattern : ℚ
  icmpResponses : Bool
deriving DecidableEq, Repr

/-- `HostIntelligence` (src/adaptive.rs lines 37–46). -/
structure HostIntelligence where
  host : IpAddr
  networkProfile : NetworkProfile
  openPorts : List Nat
  osFingerprint : Option String
  responsePattern : ResponsePattern
  firewallDetected : Bool
  lastScan : Nat
deriving DecidableEq, Repr

/-- `GlobalStats` (src/adaptive.rs lines 66–74). -/
structure GlobalStats where
  totalScans : Nat
  totalPortsFound : Nat
  totalHostsScanned : Nat
  successRate : ℚ
  avgScanTime : ℚ
  mostCommonPorts : List (Nat × Nat)
deriving DecidableEq, Repr

/-- The `AdaptiveLearning` store (src/adaptive.rs lines 56–64); the three
hash maps are modelled as functions into `Option`. The on-disk
`config_path` and the `save()` side effect are I/O and are outside the
model. The Rust maps for network profiles and host intelligence are keyed
by `format!` strings which are injective images of the network type and
the target address, so the keys are modelled by those values directly. -/
structure AdaptiveLearning where
  networkProfiles : NetworkType → Option NetworkProfile
  portIntelligence : Nat → Option PortIntelligence
  hostIntelligence : IpAddr → Option HostIntelligence
  globalStats : GlobalStats

/-- `PortScanResult` (src/adaptive.rs lines 348–355). -/
structure PortScanResult where
  port : Nat
  isOpen : Bool
  isFiltered : Bool
  responseTime : Option ℚ
  serviceDetected : Option String
deriving DecidableEq, Repr

/-- `ScanLearningData` (src/adaptive.rs lines 335–346); `scan_duration` is
carried in milliseconds. -/
structure ScanLearningData where
  target : IpAddr
  networkType : NetworkType
  portResults : List PortScanResult
  scanDurationMs : Nat
  avgResponseTime : ℚ
  timeoutRate : ℚ
  parallelismUsed : Nat
  rateLimitUsed : Nat
  scanPerformance : ℚ
deriving DecidableEq, Repr

/-- `AdaptiveLearning::update_network_profile` (src/adaptive.rs lines
204–234), on the network-profile map, with the wall clock passed in:
look up (or create from the scan data) the profile for the scan's network
type; EWMA-update the response time and timeout rate with α = 0.1; then,
when `scan_performance > 0.8`, parallelism ← `(p·1.1).min(100)` and rate
limit ← `(r·0.9).max(10)`; when `scan_performance < 0.5`, parallelism ←
`(p·0.9).max(1)` and rate limit ← `r·1.2` (no clamp); finally bump the
scan count and timestamp. -/
def updateNetworkProfile (now : Nat)
    (profiles : NetworkType → Option NetworkProfile) (d : ScanLearningData) :
    NetworkType → Option NetworkProfile :=
  let p0 : NetworkProfile :=
    match profiles d.networkType with
    | some p => p
    | none =>
      { networkType := d.networkType
        avgResponseTime := d.avgResponseTime
        timeoutRate := d.timeoutRate
        optimalParallelism := d.parallelismUsed
        optimalRateLimit := d.rateLimitUsed
        lastUpdated := now
        scanCount := 0 }
  let alpha : ℚ := 1 / 10
  let p1 := { p0 with
    avgResponseTime := p0.avgResponseTime * (1 - alpha) + d.avgResponseTime * alpha
    timeoutRate := p0.timeoutRate * (1 - alpha) + d.timeoutRate * alpha }
  let p2 :=
    if d.scanPerformance > 8 / 10 then
      { p1 with
        optimalParallelism :=
          f64ToU16 (min ((p1.optimalParallelism : ℚ) * (11 / 10)) 100)
        optimalRateLimit :=
          f64ToU64 (max ((p1.optimalRateLimit : ℚ) * (9 / 10)) 10) }
    else if d.scanPerformance < 5 / 10 then
      { p1 with
        optimalParallelism :=
          f64ToU16 (max ((p1.optimalParallelism : ℚ) * (9 / 10)) 1)
        optimalRateLimit := f64ToU64 ((p1.optimalRateLimit : ℚ) * (12 / 10)) }
    else p1
  let p3 := { p2 with scanCount := p2.scanCount + 1, lastUpdated := now }
  fun nt => if nt = d.networkType then some p3 else profiles nt

/-- One iteration of the loop in `AdaptiveLearning::update_port_intelligence`
(src/adaptive.rs lines 236–262): get or create (found_count 0, success
rate 0.5, response time 1000, confidence 0.5) the entry for the result's
port; when the port was open, increment found_count, stamp last_seen, and
EWMA-update the success rate with α = 1/(found_count + 1) (found_count
already incremented) and the response time with weight 0.2. -/
def updatePortIntelOne (now : Nat) (m : Nat → Option PortIntelligence)
    (r : PortScanResult) : Nat → Option PortIntelligence :=
  let intel : PortIntelligence :=
    match m r.port with
    | some i => i
    | none =>
      { port := r.port
        foundCount := 0
        successRate := 1 / 2
        avgResponseTime := 1000
        serviceConfidence := 1 / 2
        lastSeen := 0 }
  let intel' :=
    if r.isOpen then
      let fc := intel.foundCount + 1
      let alpha : ℚ := 1 / ((fc : ℚ) + 1)
      let art :=
        match r.responseTime with
        | some rt => intel.avgResponseTime * (8 / 10) + rt * (2 / 10)
        | none => intel.avgResponseTime
      { intel with
        foundCount := fc
        lastSeen := now
        successRate := intel.successRate * (1 - alpha) + alpha
        avgResponseTime := art }
    else intel
  fun p => if p = r.port then some intel' else m p

/-- `AdaptiveLearning::update_port_intelligence` (src/adaptive.rs lines
236–262): fold the per-result update over the scan's port results. -/
def updatePortIntelligence (now : Nat) (m : Nat → Option PortIntelligence)
    (d : ScanLearningData) : Nat → Option PortIntelligence :=
  d.portResults.foldl (updatePortIntelOne now) m

/-- `AdaptiveLearning::update_host_intelligence` (src/adaptive.rs lines
264–304): get or create the host entry, replace its open-port list by the
ports found open, set the firewall flag when the filtered ratio exceeds
0.7 (a ratio over zero ports compares false, as NaN does in Rust), and
stamp the scan time. -/
def updateHostIntelligence (now : Nat)
    (m : IpAddr → Option HostIntelligence) (d : ScanLearningData) :
    IpAddr → Option HostIntelligence :=
  let h0 : HostIntelligence :=
    match m d.target with
    | some h => h
    | none =>
      { host := d.target
        networkProfile :=
          { networkType := d.networkType
            avgResponseTime := d.avgResponseTime
            timeoutRate := d.timeoutRate
            optimalParallelism := d.parallelismUsed
            optimalRateLimit := d.rateLimitUsed
            lastUpdated := now
            scanCount := 1 }
        openPorts := []
        osFingerprint := none
        responsePattern :=
          { rstTiming := 0, synAckTiming := 0, timeoutPattern := 0
            icmpResponses := false }
        firewallDetected := false
        lastScan := now }
  let filteredCount := (d.portResults.filter (·.isFiltered)).length
  let totalCount := d.portResults.length
  let h1 := { h0 with
    openPorts := (d.portResults.filter (·.isOpen)).map (·.port)
    firewallDetected :=
      decide ((filteredCount : ℚ) / (totalCount : ℚ) > 7 / 10)
    lastScan := now }
  fun ip => if ip = d.target then some h1 else m ip

/-- Merge step of `update_global_stats`: add `count` to the port's entry in
`most_common_ports`, or append a new pair. -/
def mergeCommonPort (l : List (Nat × Nat)) (port count : Nat) :
    List (Nat × Nat) :=
  if l.any (fun e => e.1 == port) then
    l.map (fun e => if e.1 == port then (e.1, e.2 + count) else e)
  else
    l ++ [(port, count)]

/-- `AdaptiveLearning::update_global_stats` (src/adaptive.rs lines
306–332): bump the scan total and the open-port total, merge this scan's
per-port open counts into `most_common_ports`, sort by descending count
and keep the top 50. The intermediate per-scan counting map is folded in
port-result order. -/
def updateGlobalStats (g : GlobalStats) (d : ScanLearningData) : GlobalStats :=
  let openResults := d.portResults.filter (·.isOpen)
  let counts : List (Nat × Nat) :=
    openResults.foldl (fun acc r => mergeCommonPort acc r.port 1) []
  let merged :=
    counts.foldl (fun acc e => mergeCommonPort acc e.1 e.2)
      g.mostCommonPorts
  { g with
    totalScans := g.totalScans + 1
    totalPortsFound := g.totalPortsFound + openResults.length
    mostCommonPorts :=
      ((merged.mergeSort (fun a b => b.2 ≤ a.2)).take 50) }

/-- `AdaptiveLearning::learn_from_scan` (src/adaptive.rs lines 154–162):
the four updates in program order; the trailing `save()` is disk I/O and
outside the model. -/
def learnFromScan (now : Nat) (s : AdaptiveLearning) (d : ScanLearningData) :
    AdaptiveLearning :=
  { networkProfiles := updateNetworkProfile now s.networkProfiles d
    portIntelligence := updatePortIntelligence now s.portIntelligence d
    hostIntelligence := updateHostIntelligence now s.hostIntelligence d
    globalStats := updateGlobalStats s.globalStats d }

/-- `OptimalScanParams` (src/adaptive.rs lines 357–364). -/
structure OptimalScanParams where
  timeoutMs : Nat
  rateLimit : Nat
  parallelism : Nat
  suggestedPorts : List Nat
  networkType : NetworkType
deriving DecidableEq, Repr

/-- `OptimalScanParams::default_for_network` (src/adaptive.rs lines
366–399): the hard-coded per-network-type defaults. -/
def OptimalScanParams.defaultForNetwork (nt : NetworkType) : OptimalScanParams :=
  match nt with
  | .LocalHost =>
    { timeoutMs := 200, rateLimit := 10, parallelism := 100
      suggestedPorts := [22, 80, 443, 8080, 3306, 5432], networkType := nt }
  | .PrivateLAN =>
    { timeoutMs := 500, rateLimit := 50, parallelism := 50
      suggestedPorts := [22, 80, 443, 445, 135, 3389], networkType := nt }
  | .PublicInternet =>
    { timeoutMs := 2000, rateLimit := 200, parallelism := 20
      suggestedPorts := [80, 443, 22, 21, 25, 53], networkType := nt }
  | .CloudProvider =>
    { timeoutMs := 1000, rateLimit := 100, parallelism := 30
      suggestedPorts := [22, 80, 443, 8080, 9000, 3000], networkType := nt }

/-- `AdaptiveLearning::get_smart_port_list` (src/adaptive.rs lines
183–202) over the known port-intelligence entries (listed with their
data): score = success_rate × service_confidence × recency × bonus, sort
descending, keep 100 ports. -/
def getSmartPortList (now : Nat) (entries : List PortIntelligence)
    (nt : NetworkType) : List Nat :=
  let scored := entries.map (fun intel =>
    let recencyFactor : ℚ :=
      1 - min (((now - intel.lastSeen : Nat) : ℚ) / (86400 * 30)) 1
    let bonus : ℚ :=
      match nt with
      | .LocalHost => if intel.port == 22 || intel.port == 80 then 2 else 1
      | .PrivateLAN => if intel.port == 445 || intel.port == 135 then 3 / 2 else 1
      | .PublicInternet => if intel.port == 80 || intel.port == 443 then 3 / 2 else 1
      | .CloudProvider =>
        if intel.port == 22 || intel.port == 80 || intel.port == 443 then 3 / 2
        else 1
    (intel.port,
      intel.successRate * intel.serviceConfidence * recencyFactor * bonus))
  ((scored.mergeSort (fun a b => b.2 ≤ a.2)).map Prod.fst).take 100

/-- `AdaptiveLearning::get_optimal_params` (src/adaptive.rs lines
165–180), with the store's port-intelligence entries supplied as a listing
of the map: when a profile exists for the target's network class, the
timeout is `(avg_response_time * 3.0) as u64` with rate limit and
parallelism from the profile; otherwise the per-network defaults. -/
def getOptimalParams (now : Nat)
    (profiles : NetworkType → Option NetworkProfile)
    (intelEntries : List PortIntelligence) (ip : IpAddr) : OptimalScanParams :=
  let nt := classifyNetwork ip
  match profiles nt with
  | some profile =>
    { timeoutMs := f64ToU64 (profile.avgResponseTime * 3)
      rateLimit := profile.optimalRateLimit
      parallelism := profile.optimalParallelism
      suggestedPorts := getSmartPortList now intelEntries nt
      networkType := nt }
  | none => OptimalScanParams.defaultForNetwork nt

/-! ## Adaptive-store dataflow of `Scanner::scan` (src/scanner/mod.rs)

`Scanner::scan` (lines 100–125) builds, for every target, a
`scanner_clone` whose `adaptive_learning` is `self.adaptive_learning.clone()`
— a by-value snapshot taken from the engine's store, which no task
modifies — and moves the clone into the spawned task. The task,
`scan_single_host` (lines 312–325), ends by calling `learn_from_scan` on
its own clone; the clone is then dropped with the task and `self` (the
engine) is never reassigned. -/

/-- Engine store after `scan()` together with the final per-host task
stores (in host order): the engine store is returned as it was, and each
host task ends holding its own learned copy of the pre-scan snapshot. -/
def scanStoreDataflow (now : Nat) (engineStore : AdaptiveLearning)
    (hostData : List ScanLearningData) :
    AdaptiveLearning × List AdaptiveLearning :=
  (engineStore, hostData.map (fun d => learnFromScan now engineStore d))

/-- Modelled from the spec: §5 "updates are reduced back into the store on
the owning task" — the engine store that `scan()` would hold if every
per-host learning update were folded back into it. The code under test
(`Scanner::scan`) does not contain such a reduction; this definition
expresses the spec's claimed semantics for comparison. -/
def scanStoreReducedSpec (now : Nat) (engineStore : AdaptiveLearning)
    (hostData : List ScanLearningData) : AdaptiveLearning :=
  hostData.foldl (learnFromScan now) engineStore

/-! ## Result cache (src/scanner/scan_cache.rs)

The cache is a map from the host key (`target.to_string()`, an injective
image of the address, modelled by the address itself) to a
`CachedHostResult` whose `ports` map is keyed by the port number alone;
the scan technique is a field of the stored entry, not part of any key.
Both hash maps are modelled as association lists with in-place
replacement on insert; wall-clock reads are passed in as `now`. -/

/-- `ServiceInfo` (src/scanner/results.rs). -/
structure ServiceInfo where
  name : String
  version : Option String
  confidence : ℚ
deriving DecidableEq, Repr

/-- `CachedPortResult` (src/scanner/scan_cache.rs lines 11–17). -/
structure CachedPortResult where
  status : PortStatus
  service : Option ServiceInfo
  timestamp : Nat
  scanType : ScanType
deriving DecidableEq, Repr

/-- `CachedHostResult` (src/scanner/scan_cache.rs lines 19–24). -/
structure CachedHostResult where
  target : IpAddr
  ports : List (Nat × CachedPortResult)
  lastFullScan : Nat
deriving DecidableEq, Repr

/-- `ScanCache` (src/scanner/scan_cache.rs lines 26–39). -/
structure ScanCache where
  cache : List (IpAddr × CachedHostResult)
  cacheTtlSeconds : Nat
  maxEntries : Nat
deriving DecidableEq, Repr

/-- `ScanCache::new`. -/
def ScanCache.new (ttlSeconds maxEntries : Nat) : ScanCache :=
  { cache := [], cacheTtlSeconds := ttlSeconds, maxEntries := maxEntries }

/-- Association-list lookup (HashMap `get`). -/
def assocFind {α β : Type} [DecidableEq α] (l : List (α × β)) (k : α) :
    Option β :=
  (l.find? (fun e => e.1 = k)).map Prod.snd

/-- Association-list insert with in-place replacement (HashMap `insert`):
the first entry with the key is replaced, otherwise the pair is appended. -/
def assocInsert {α β : Type} [DecidableEq α] : List (α × β) → α → β →
    List (α × β)
  | [], k, v => [(k, v)]
  | e :: rest, k, v =>
    if e.1 = k then (k, v) :: rest else e :: assocInsert rest k v

/-- `ScanCache::is_result_valid` (src/scanner/scan_cache.rs lines
183–190): the entry is younger than the TTL. -/
def isResultValid (now : Nat) (c : ScanCache) (r : CachedPortResult) : Bool :=
  now - r.timestamp < c.cacheTtlSeconds

/-- `ScanCache::get_cached_result` (src/scanner/scan_cache.rs lines
42–56): look up host then port; return the stored status and service only
when the entry is still valid and its stored scan type equals the
requested one. -/
def getCachedResult (now : Nat) (c : ScanCache) (target : IpAddr)
    (port : Nat) (scanType : ScanType) :
    Option (PortStatus × Option ServiceInfo) :=
  match assocFind c.cache target with
  | some hostResult =>
    match assocFind hostResult.ports port with
    | some portResult =>
      if isResultValid now c portResult && portResult.scanType == scanType then
        some (portResult.status, portResult.service)
      else
        none
    | none => none
  | none => none

/-- `ScanCache::cleanup_old_entries` (src/scanner/scan_cache.rs lines
192–217): drop hosts older than twice the TTL, then, if still over
capacity, drop the hosts with the oldest `last_full_scan`. -/
def cleanupOldEntries (now : Nat) (ttl maxEntries : Nat)
    (cache : List (IpAddr × CachedHostResult)) :
    List (IpAddr × CachedHostResult) :=
  let kept := cache.filter (fun e => now - e.2.lastFullScan < ttl * 2)
  if kept.length > maxEntries then
    let byAge :=
      (kept.map (fun e => (e.1, e.2.lastFullScan))).mergeSort
        (fun a b => a.2 ≤ b.2)
    let victims := (byAge.take (kept.length - maxEntries)).map Prod.fst
    kept.filter (fun e => ¬ victims.contains e.1)
  else
    kept

/-- `ScanCache::cache_result` (src/scanner/scan_cache.rs lines 59–92):
build the port entry stamped `now`, get or create the host entry, insert
the port entry keyed by the port number alone (replacing whatever entry —
of any technique — was there), and clean up when over capacity. -/
def cacheResult (now : Nat) (c : ScanCache) (target : IpAddr) (port : Nat)
    (status : PortStatus) (service : Option ServiceInfo)
    (scanType : ScanType) : ScanCache :=
  let portResult : CachedPortResult :=
    { status := status, service := service, timestamp := now
      scanType := scanType }
  let hostResult : CachedHostResult :=
    match assocFind c.cache target with
    | some h => h
    | none => { target := target, ports := [], lastFullScan := now }
  let hostResult' :=
    { hostResult with ports := assocInsert hostResult.ports port portResult }
  let cache' := assocInsert c.cache target hostResult'
  let cache'' :=
    if cache'.length > c.maxEntries then
      cleanupOldEntries now c.cacheTtlSeconds c.maxEntries cache'
    else
      cache'
  { c with cache := cache'' }

/-! ## Concrete test fixtures -/

/-- A LAN network profile with parallelism 50 and rate limit 100 ms. -/
def lanProfile50 : NetworkProfile :=
  { networkType := .PrivateLAN, avgResponseTime := 0, timeoutRate := 0
    optimalParallelism := 50, optimalRateLimit := 100, lastUpdated := 0
    scanCount := 0 }

/-- A profile map holding exactly `lanProfile50` for the PrivateLAN class. -/
def lanProfiles : NetworkType → Option NetworkProfile :=
  fun nt => if nt = .PrivateLAN then some lanProfile50 else none

/-- Scan data for a LAN host with scan_performance 0.4 (below the 0.5
threshold) that used parallelism 50 and rate limit 100 ms. -/
def lanScanLowPerf : ScanLearningData :=
  { target := .v4 192 168 1 1, networkType := .PrivateLAN, portResults := []
    scanDurationMs := 0, avgResponseTime := 0, timeoutRate := 0
    parallelismUsed := 50, rateLimitUsed := 100, scanPerformance := 2 / 5 }

/-- Scan data for a LAN host with scan_performance 0.6 (inside the
[0.5, 0.8] band) that used parallelism 50 and rate limit 100 ms. -/
def lanScanMidPerf : ScanLearningData :=
  { target := .v4 192 168 1 1, networkType := .PrivateLAN, portResults := []
    scanDurationMs := 0, avgResponseTime := 0, timeoutRate := 0
    parallelismUsed := 50, rateLimitUsed := 100, scanPerformance := 3 / 5 }

/-- Scan data for a LAN host with scan_performance 0.6 (inside the
[0.5, 0.8] band) that used parallelism 0 and rate limit 0 ms — both
outside the documented ranges. -/
def lanScanMidPerfZero : ScanLearningData :=
  { target := .v4 192 168 1 1, networkType := .PrivateLAN, portResults := []
    scanDurationMs := 0, avgResponseTime := 0, timeoutRate := 0
    parallelismUsed := 0, rateLimitUsed := 0, scanPerformance := 3 / 5 }

/-- A port-intelligence entry for port 80 as `update_port_intelligence`
would create it (found_count 0, success rate 0.5). -/
def port80Intel : PortIntelligence :=
  { port := 80, foundCount := 0, successRate := 1 / 2
    avgResponseTime := 1000, serviceConfidence := 1 / 2, lastSeen := 0 }

/-- A port-intelligence map holding exactly `port80Intel`. -/
def port80Map : Nat → Option PortIntelligence :=
  fun p => if p = 80 then some port80Intel else none

/-- A scan observation of port 80 found open. -/
def openPort80 : PortScanResult :=
  { port := 80, isOpen := true, isFiltered := false, responseTime := none
    serviceDetected := none }

/-- An adaptive store whose port intelligence is `port80Map`. -/
def port80Store : AdaptiveLearning :=
  { networkProfiles := fun _ => none, portIntelligence := port80Map
    hostIntelligence := fun _ => none
    globalStats :=
      { totalScans := 0, totalPortsFound := 0, totalHostsScanned := 0
        successRate := 0, avgScanTime := 0, mostCommonPorts := [] } }

/-! ## Helper lemmas -/

theorem le_f64ToU16 {q : ℚ} {n : Nat} (hq : (n : ℚ) ≤ q) (hn : n ≤ 65535) :
    n ≤ f64ToU16 q := by
  have h1 : (n : ℤ) ≤ ⌊q⌋ := Int.le_floor.mpr (by exact_mod_cast hq)
  unfold f64ToU16
  omega

theorem f64ToU16_le {q : ℚ} {n : Nat} (hq : q ≤ (n : ℚ)) : f64ToU16 q ≤ n := by
  have h1 : ⌊q⌋ ≤ (n : ℤ) := by
    simpa using Int.floor_le_floor hq
  unfold f64ToU16
  omega

theorem le_f64ToU64 {q : ℚ} {n : Nat} (hq : (n : ℚ) ≤ q)
    (hn : n ≤ 2 ^ 64 - 1) : n ≤ f64ToU64 q := by
  have h1 : (n : ℤ) ≤ ⌊q⌋ := Int.le_floor.mpr (by exact_mod_cast hq)
  unfold f64ToU64
  omega

theorem f64ToU16_natCast (n : Nat) (h : n ≤ 65535) : f64ToU16 ((n : ℚ)) = n := by
  unfold f64ToU16
  rw [Int.floor_natCast]
  omega

theorem f64ToU64_natCast (n : Nat) (h : n ≤ 2 ^ 64 - 1) :
    f64ToU64 ((n : ℚ)) = n := by
  unfold f64ToU64
  rw [Int.floor_natCast]
  omega

theorem bounds_par_hi (par : Nat) (h1 : 1 ≤ par) :
    1 ≤ f64ToU16 (min ((par : ℚ) * (11 / 10)) 100) ∧
    f64ToU16 (min ((par : ℚ) * (11 / 10)) 100) ≤ 100 := by
  have h0 : (1 : ℚ) ≤ (par : ℚ) := by exact_mod_cast h1
  have hlow : ((1 : Nat) : ℚ) ≤ min ((par : ℚ) * (11 / 10)) 100 := by
    have : (1 : ℚ) ≤ min ((par : ℚ) * (11 / 10)) 100 :=
      le_min (by nlinarith) (by norm_num)
    exact_mod_cast this
  have hup : min ((par : ℚ) * (11 / 10)) 100 ≤ ((100 : Nat) : ℚ) := by
    exact_mod_cast min_le_right ((par : ℚ) * (11 / 10)) (100 : ℚ)
  exact ⟨le_f64ToU16 hlow (by norm_num), f64ToU16_le hup⟩

theorem bounds_rate_hi (rate : Nat) :
    10 ≤ f64ToU64 (max ((rate : ℚ) * (9 / 10)) 10) := by
  have hlow : ((10 : Nat) : ℚ) ≤ max ((rate : ℚ) * (9 / 10)) 10 := by
    exact_mod_cast le_max_right ((rate : ℚ) * (9 / 10)) (10 : ℚ)
  exact le_f64ToU64 hlow (by norm_num)

theorem bounds_par_lo (par : Nat) (h100 : par ≤ 100) :
    1 ≤ f64ToU16 (max ((par : ℚ) * (9 / 10)) 1) ∧
    f64ToU16 (max ((par : ℚ) * (9 / 10)) 1) ≤ 100 := by
  have h0 : (par : ℚ) ≤ 100 := by exact_mod_cast h100
  have hlow : ((1 : Nat) : ℚ) ≤ max ((par : ℚ) * (9 / 10)) 1 := by
    exact_mod_cast le_max_right ((par : ℚ) * (9 / 10)) (1 : ℚ)
  have hup : max ((par : ℚ) * (9 / 10)) 1 ≤ ((100 : Nat) : ℚ) := by
    have : max ((par : ℚ) * (9 / 10)) 1 ≤ (100 : ℚ) :=
      max_le (by nlinarith) (by norm_num)
    exact_mod_cast this
  exact ⟨le_f64ToU16 hlow (by norm_num), f64ToU16_le hup⟩

theorem bounds_rate_lo (rate : Nat) (h10 : 10 ≤ rate) :
    10 ≤ f64ToU64 ((rate : ℚ) * (12 / 10)) := by
  have h0 : (10 : ℚ) ≤ (rate : ℚ) := by exact_mod_cast h10
  have hlow : ((10 : Nat) : ℚ) ≤ (rate : ℚ) * (12 / 10) := by
    have : (10 : ℚ) ≤ (rate : ℚ) * (12 / 10) := by nlinarith
    exact_mod_cast this
  exact le_f64ToU64 hlow (by norm_num)

theorem rawScanResult_cons_nomatch {port srcPort : Nat} {p : RawPacket}
    {rest : List RawPacket} (f : Nat) (h : pktMatches port srcPort p = false) :
    rawScanResult f port srcPort (p :: rest) = rawScanResult f port srcPort rest := by
  simp [rawScanResult, h]

theorem firstMatching_cons_nomatch {port srcPort : Nat} {p : RawPacket}
    {rest : List RawPacket} (h : pktMatches port srcPort p = false) :
    firstMatching port srcPort (p :: rest) = firstMatching port srcPort rest := by
  simp [firstMatching, List.filter, h]

theorem firstMatching_cons_match {port srcPort : Nat} {p : RawPacket}
    {rest : List RawPacket} (h : pktMatches port srcPort p = true) :
    firstMatching port srcPort (p :: rest) = some p := by
  simp [firstMatching, List.filter, h]

theorem classifyReply_of_synAck {f flags : Nat} (h : isSynAck flags = true) :
    classifyReply f flags = some .Open := by
  rcases Bool.and_eq_true_iff.mp (by simpa [isSynAck] using h) with ⟨h1, h2⟩
  simp [classifyReply, h1, h2]

theorem classifyReply_of_rst {f flags : Nat} (h : isRstReply flags = true) :
    classifyReply f flags = some .Closed := by
  have h' : hasFlag flags rstFlag = true ∧ isSynAck flags = false := by
    simpa [isRstReply] using h
  have hsa : (hasFlag flags synFlag && hasFlag flags ackFlag) = false := by
    simpa [isSynAck] using h'.2
  simp [classifyReply, h'.1, hsa]

theorem rawScanResult_of_first_decided {f port srcPort : Nat}
    {pkts : List RawPacket} {p : RawPacket} {s : PortStatus}
    (hfm : firstMatching port srcPort pkts = some p)
    (hc : classifyReply f p.flags = some s) :
    rawScanResult f port srcPort pkts = s := by
  induction pkts with
  | nil => simp [firstMatching] at hfm
  | cons q rest ih =>
    by_cases hq : pktMatches port srcPort q = true
    · rw [firstMatching_cons_match hq] at hfm
      obtain rfl : q = p := by simpa using hfm
      simp [rawScanResult, hq, hc]
    · have hq' : pktMatches port srcPort q = false := by
        simpa using hq
      rw [firstMatching_cons_nomatch hq'] at hfm
      rw [rawScanResult_cons_nomatch f hq']
      exact ih hfm

theorem rawScanResult_of_no_match {f port srcPort : Nat}
    {pkts : List RawPacket} (hfm : firstMatching port srcPort pkts = none) :
    rawScanResult f port srcPort pkts =
      (if f = synFlag then .Filtered else .Open) := by
  induction pkts with
  | nil => simp [rawScanResult]
  | cons q rest ih =>
    by_cases hq : pktMatches port srcPort q = true
    · rw [firstMatching_cons_match hq] at hfm
      simp at hfm
    · have hq' : pktMatches port srcPort q = false := by
        simpa using hq
      rw [firstMatching_cons_nomatch hq'] at hfm
      rw [rawScanResult_cons_nomatch f hq']
      exact ih hfm

theorem rawScanResult_syn_open_evidence {port srcPort : Nat}
    {pkts : List RawPacket}
    (h : rawScanResult synFlag port srcPort pkts = .Open) :
    ∃ p ∈ pkts, pktMatches port srcPort p = true ∧ isSynAck p.flags = true := by
  induction pkts with
  | nil => simp [rawScanResult] at h
  | cons q rest ih =>
    by_cases hq : pktMatches port srcPort q = true
    · by_cases hsa : isSynAck q.flags = true
      · exact ⟨q, by simp, hq, hsa⟩
      · have hsa' : (hasFlag q.flags synFlag && hasFlag q.flags ackFlag) = false := by
          simpa [isSynAck] using hsa
        by_cases hrst : hasFlag q.flags rstFlag = true
        · have : rawScanResult synFlag port srcPort (q :: rest) = .Closed := by
            simp [rawScanResult, hq, classifyReply, hsa', hrst]
          rw [this] at h
          exact absurd h (by decide)
        · have hrst' : hasFlag q.flags rstFlag = false := by simpa using hrst
          have hrec : rawScanResult synFlag port srcPort (q :: rest) =
              rawScanResult synFlag port srcPort rest := by
            simp [rawScanResult, hq, classifyReply, hsa', hrst']
          rw [hrec] at h
          obtain ⟨p, hp, hm, hs⟩ := ih h
          exact ⟨p, by simp [hp], hm, hs⟩
    · have hq' : pktMatches port srcPort q = false := by simpa using hq
      rw [rawScanResult_cons_nomatch synFlag hq'] at h
      obtain ⟨p, hp, hm, hs⟩ := ih h
      exact ⟨p, by simp [hp], hm, hs⟩

theorem length_assocInsert_le {α β : Type} [DecidableEq α]
    (l : List (α × β)) (k : α) (v : β) :
    (assocInsert l k v).length ≤ l.length + 1 := by
  induction l with
  | nil => simp [assocInsert]
  | cons e rest ih =>
    by_cases h : e.1 = k
    · simp [assocInsert, h]
    · simp only [assocInsert, h, if_false, List.length_cons]
      omega

theorem assocFind_assocInsert_self {α β : Type} [DecidableEq α]
    (l : List (α × β)) (k : α) (v : β) :
    assocFind (assocInsert l k v) k = some v := by
  induction l with
  | nil => simp [assocInsert, assocFind]
  | cons e rest ih =>
    by_cases h : e.1 = k
    · simp [assocInsert, h, assocFind]
    · simpa [assocInsert, h, assocFind, List.find?] using ih

theorem getCachedResult_cacheResult (c : ScanCache) (target : IpAddr)
    (port : Nat) (st : PortStatus) (sv : Option ServiceInfo) (ty q : ScanType)
    (now now' : Nat) (hcap : c.cache.length < c.maxEntries) :
    getCachedResult now' (cacheResult now c target port st sv ty) target
      port q =
      if now' - now < c.cacheTtlSeconds ∧ ty = q then some (st, sv)
      else none := by
  have hins : ∀ v : CachedHostResult,
      (assocInsert c.cache target v).length ≤ c.cache.length + 1 :=
    fun v => length_assocInsert_le _ _ _
  rcases hfind : assocFind c.cache target with _ | hR
  · simp only [cacheResult, hfind]
    rw [if_neg (Nat.not_lt.mpr (le_trans (hins _) hcap))]
    simp only [getCachedResult, assocFind_assocInsert_self, isResultValid]
    by_cases h1 : now' - now < c.cacheTtlSeconds <;>
      by_cases h2 : ty = q <;>
      simp [h1, h2]
  · simp only [cacheResult, hfind]
    rw [if_neg (Nat.not_lt.mpr (le_trans (hins _) hcap))]
    simp only [getCachedResult, assocFind_assocInsert_self, isResultValid]
    by_cases h1 : now' - now < c.cacheTtlSeconds <;>
      by_cases h2 : ty = q <;>
      simp [h1, h2]

/-! ## Claim theorems -/

/-- C1: for every raw-packet probe of (target, port) with a timeout
(modelled by the list of replies arriving within the timeout window):
under the SYN technique a matching SYN+ACK reply yields Open, a matching
RST reply yields Closed, and expiry of the window with no matching reply
yields Filtered — moreover a SYN probe reports Open only on the evidence
of a matching SYN+ACK reply, never from a timeout; under the FIN, XMAS
and NULL techniques a matching RST yields Closed and no matching reply
within the timeout yields Open. -/
theorem raw_probe_status_semantics (port srcPort : Nat)
    (pkts : List RawPacket) :
    (firstMatching port srcPort pkts = none →
      rawScanResult synFlag port srcPort pkts = .Filtered ∧
      rawScanResult finFlag port srcPort pkts = .Open ∧
      rawScanResult xmasFlags port srcPort pkts = .Open ∧
      rawScanResult 0 port srcPort pkts = .Open) ∧
    (∀ p, firstMatching port srcPort pkts = some p →
      (isSynAck p.flags = true →
        rawScanResult synFlag port srcPort pkts = .Open) ∧
      (isRstReply p.flags = true →
        rawScanResult synFlag port srcPort pkts = .Closed ∧
        rawScanResult finFlag port srcPort pkts = .Closed ∧
        rawScanResult xmasFlags port srcPort pkts = .Closed ∧
        rawScanResult 0 port srcPort pkts = .Closed)) ∧
    (rawScanResult synFlag port srcPort pkts = .Open →
      ∃ p ∈ pkts, pktMatches port srcPort p = true ∧
        isSynAck p.flags = true) := by
  refine ⟨?_, ?_, rawScanResult_syn_open_evidence⟩
  · intro hfm
    refine ⟨?_, ?_, ?_, ?_⟩ <;> rw [rawScanResult_of_no_match hfm] <;> decide
  · intro p hfm
    constructor
    · intro hsa
      exact rawScanResult_of_first_decided hfm (classifyReply_of_synAck hsa)
    · intro hrst
      exact ⟨rawScanResult_of_first_decided hfm (classifyReply_of_rst hrst),
        rawScanResult_of_first_decided hfm (classifyReply_of_rst hrst),
        rawScanResult_of_first_decided hfm (classifyReply_of_rst hrst),
        rawScanResult_of_first_decided hfm (classifyReply_of_rst hrst)⟩

/-- C1 witness: concrete probes of port 80 with ephemeral source port
50000 — a SYN+ACK reply (flags 18) opens a SYN probe, an RST+ACK reply
(flags 20) closes both SYN and FIN probes, and an empty reply window
filters a SYN probe but opens a FIN probe. -/
theorem raw_probe_status_semantics_witness :
    rawScanResult synFlag 80 50000 [⟨80, 50000, true, 18⟩] = .Open ∧
    rawScanResult synFlag 80 50000 [⟨80, 50000, true, 20⟩] = .Closed ∧
    rawScanResult finFlag 80 50000 [⟨80, 50000, true, 20⟩] = .Closed ∧
    rawScanResult synFlag 80 50000 [⟨99, 1, false, 20⟩] = .Filtered ∧
    rawScanResult finFlag 80 50000 [⟨99, 1, false, 20⟩] = .Open := by
  refine ⟨?_, ?_, ?_, ?_, ?_⟩
  · exact ((raw_probe_status_semantics 80 50000
      [⟨80, 50000, true, 18⟩]).2.1 ⟨80, 50000, true, 18⟩
      (by decide)).1 (by decide)
  · exact (((raw_probe_status_semantics 80 50000
      [⟨80, 50000, true, 20⟩]).2.1 ⟨80, 50000, true, 20⟩
      (by decide)).2 (by decide)).1
  · exact (((raw_probe_status_semantics 80 50000
      [⟨80, 50000, true, 20⟩]).2.1 ⟨80, 50000, true, 20⟩
      (by decide)).2 (by decide)).2.1
  · exact ((raw_probe_status_semantics 80 50000
      [⟨99, 1, false, 20⟩]).1 (by decide)).1
  · exact ((raw_probe_status_semantics 80 50000
      [⟨99, 1, false, 20⟩]).1 (by decide)).2.1

/-- C2 counterexample: with the global cache parameters (TTL 3600 s, 1000
hosts), cache an Open result for (192.168.1.1, 80) under the Connect
technique, then a Closed result for the same (host, port) under the Syn
technique, both at time 100; an immediate lookup for the Connect
technique returns `none`, although its entry is far younger than the TTL
— the Syn insert replaced it, because the `ports` map is keyed by the
port number alone. -/
theorem cache_cross_technique_counterexample :
    getCachedResult 100
      (cacheResult 100
        (cacheResult 100 (ScanCache.new 3600 1000)
          (IpAddr.v4 192 168 1 1) 80 .Open none .Connect)
        (IpAddr.v4 192 168 1 1) 80 .Closed none .Syn)
      (IpAddr.v4 192 168 1 1) 80 .Connect = none := by
  decide

/-- C2 (amended): the result cache memoizes (host, port) → result with a
TTL, storing the technique of the most recent insert:
`get_cached_result(host, port, technique)` returns the most recently
cached result for (host, port) exactly when that entry is younger than
the TTL and was inserted under the same technique; any lookup of an entry
that exceeded the TTL returns None; and caching a result under a
different technique at the same (host, port) replaces the previous
technique's entry, whose lookups then return None. (The capacity
hypothesis keeps the insert below the eviction threshold, which the claim
does not concern.) -/
theorem cache_ttl_and_replacement (c : ScanCache) (target : IpAddr)
    (port : Nat) (st : PortStatus) (sv : Option ServiceInfo)
    (ty ty' : ScanType) (now now' : Nat) :
    (c.cache.length < c.maxEntries → now' - now < c.cacheTtlSeconds →
      getCachedResult now' (cacheResult now c target port st sv ty) target
        port ty = some (st, sv)) ∧
    (c.cache.length < c.maxEntries → ty ≠ ty' →
      getCachedResult now' (cacheResult now c target port st sv ty) target
        port ty' = none) ∧
    (∀ hostR portR, assocFind c.cache target = some hostR →
      assocFind hostR.ports port = some portR →
      portR.timestamp + c.cacheTtlSeconds ≤ now' →
      getCachedResult now' c target port ty = none) := by
  refine ⟨?_, ?_, ?_⟩
  · intro hcap hfresh
    rw [getCachedResult_cacheResult c target port st sv ty ty now now' hcap]
    simp [hfresh]
  · intro hcap hne
    rw [getCachedResult_cacheResult c target port st sv ty ty' now now' hcap]
    simp [hne]
  · intro hostR portR hhost hport hexp
    have hinvalid : ¬ (now' - portR.timestamp < c.cacheTtlSeconds) := by
      omega
    simp [getCachedResult, hhost, hport, isResultValid, hinvalid]

/-- C2 witness: instantiating the amended cache contract on an empty
cache with TTL 3600 and capacity 1000 at concrete times: a same-technique
lookup 10 s after the insert hits; a cross-technique lookup misses; and a
lookup 3600 s after an insert (exactly the TTL) misses. -/
theorem cache_ttl_and_replacement_witness :
    getCachedResult 110
      (cacheResult 100 (ScanCache.new 3600 1000) (IpAddr.v4 10 0 0 1) 443
        .Open none .Connect)
      (IpAddr.v4 10 0 0 1) 443 .Connect = some (.Open, none) ∧
    getCachedResult 110
      (cacheResult 100 (ScanCache.new 3600 1000) (IpAddr.v4 10 0 0 1) 443
        .Open none .Connect)
      (IpAddr.v4 10 0 0 1) 443 .Syn = none ∧
    getCachedResult 3700
      (cacheResult 100 (ScanCache.new 3600 1000) (IpAddr.v4 10 0 0 1) 443
        .Open none .Connect)
      (IpAddr.v4 10 0 0 1) 443 .Connect = none := by
  refine ⟨?_, ?_, ?_⟩
  · exact (cache_ttl_and_replacement (ScanCache.new 3600 1000)
      (IpAddr.v4 10 0 0 1) 443 .Open none .Connect .Syn 100 110).1
      (by decide) (by decide)
  · exact (cache_ttl_and_replacement (ScanCache.new 3600 1000)
      (IpAddr.v4 10 0 0 1) 443 .Open none .Connect .Syn 100 110).2.1
      (by decide) (by decide)
  · exact (cache_ttl_and_replacement
      (cacheResult 100 (ScanCache.new 3600 1000) (IpAddr.v4 10 0 0 1) 443
        .Open none .Connect)
      (IpAddr.v4 10 0 0 1) 443 .Open none .Connect .Syn 100 3700).2.2
      { target := IpAddr.v4 10 0 0 1
        ports := [(443, { status := .Open, service := none, timestamp := 100
                          scanType := .Connect })]
        lastFullScan := 100 }
      { status := .Open, service := none, timestamp := 100
        scanType := .Connect }
      (by decide) (by decide) (by decide)

/-- C3 counterexample, refuting both failing parts of the claim. First,
an existing PrivateLAN profile with rate limit 100 ms updated by a scan
with scan_performance 0.4 (< 0.5) stores rate limit 120 ms — the code
multiplies by 1.2, not by 1.1, so the rate limit is raised by 20 %, not
by the claimed 10 % (which would give 110). Second, a profile created by
the update itself from a scan with scan_performance 0.6 (between the
thresholds) that used parallelism 0 and rate limit 0 stores exactly those
values — 0 < 1 and 0 < 10, so the claimed invariant "in every case the
stored values (including a profile created by the update itself) remain
within parallelism ∈ [1, 100] and rate_limit ≥ 10 ms" fails. -/
theorem network_profile_update_counterexample :
    ((updateNetworkProfile 1 lanProfiles lanScanLowPerf .PrivateLAN).map
      NetworkProfile.optimalRateLimit = some 120 ∧ (120 : Nat) ≠ 110) ∧
    ((updateNetworkProfile 1 (fun _ => none) lanScanMidPerfZero
        .PrivateLAN).map NetworkProfile.optimalParallelism = some 0 ∧
      (updateNetworkProfile 1 (fun _ => none) lanScanMidPerfZero
        .PrivateLAN).map NetworkProfile.optimalRateLimit = some 0 ∧
      ¬ 1 ≤ (0 : Nat) ∧ ¬ 10 ≤ (0 : Nat)) := by
  refine ⟨⟨?_, by decide⟩, ?_, ?_, by decide, by decide⟩
  · have harg : ((100 : Nat) : ℚ) * (12 / 10) = ((120 : Nat) : ℚ) := by
      norm_num
    have h120 : f64ToU64 ((120 : Nat) : ℚ) = 120 :=
      f64ToU64_natCast 120 (by norm_num)
    norm_num at h120
    simp only [updateNetworkProfile, lanProfiles, lanScanLowPerf, lanProfile50]
    norm_num [harg, h120]
  · simp only [updateNetworkProfile, lanScanMidPerfZero]
    norm_num
  · simp only [updateNetworkProfile, lanScanMidPerfZero]
    norm_num

/-- C3 (amended): for every learn update on a network profile, with base
parallelism `par0` and base rate limit `rate0` taken from the stored
profile when one exists and from the scan's used parallelism and rate
limit when the update creates the profile (`or_insert_with`): when
scan_performance > 0.8 the stored parallelism is `par0` multiplied by 1.1
(capped at 100, truncated to an integer) and the stored rate limit is
`rate0` multiplied by 0.9 (floored at 10 ms); when scan_performance < 0.5
the parallelism is `par0` multiplied by 0.9 (floored at 1, truncated) and
the rate limit is `rate0` multiplied by 1.2 — raised by 20 %, with no
upper clamp; between the thresholds the stored values are exactly `par0`
and `rate0` — in particular a profile created in the middle band inherits
the scan's used values without clamping; and in every case the stored
values satisfy parallelism ∈ [1, 100] and rate_limit ≥ 10 ms whenever the
base values did. -/
theorem network_profile_update_amended (now : Nat)
    (profiles : NetworkType → Option NetworkProfile) (d : ScanLearningData)
    (par0 rate0 : Nat)
    (hbase : (∃ p, profiles d.networkType = some p ∧
        p.optimalParallelism = par0 ∧ p.optimalRateLimit = rate0) ∨
      (profiles d.networkType = none ∧ d.parallelismUsed = par0 ∧
        d.rateLimitUsed = rate0)) :
    (d.scanPerformance > 8 / 10 →
      (updateNetworkProfile now profiles d d.networkType).map
          NetworkProfile.optimalParallelism =
        some (f64ToU16 (min ((par0 : ℚ) * (11 / 10)) 100)) ∧
      (updateNetworkProfile now profiles d d.networkType).map
          NetworkProfile.optimalRateLimit =
        some (f64ToU64 (max ((rate0 : ℚ) * (9 / 10)) 10))) ∧
    (d.scanPerformance < 5 / 10 →
      (updateNetworkProfile now profiles d d.networkType).map
          NetworkProfile.optimalParallelism =
        some (f64ToU16 (max ((par0 : ℚ) * (9 / 10)) 1)) ∧
      (updateNetworkProfile now profiles d d.networkType).map
          NetworkProfile.optimalRateLimit =
        some (f64ToU64 ((rate0 : ℚ) * (12 / 10)))) ∧
    (5 / 10 ≤ d.scanPerformance → d.scanPerformance ≤ 8 / 10 →
      (updateNetworkProfile now profiles d d.networkType).map
          NetworkProfile.optimalParallelism = some par0 ∧
      (updateNetworkProfile now profiles d d.networkType).map
          NetworkProfile.optimalRateLimit = some rate0) ∧
    (∀ p', updateNetworkProfile now profiles d d.networkType = some p' →
      1 ≤ par0 → par0 ≤ 100 → 10 ≤ rate0 →
      1 ≤ p'.optimalParallelism ∧ p'.optimalParallelism ≤ 100 ∧
      10 ≤ p'.optimalRateLimit) := by
  rcases hbase with ⟨p, hp, hpar, hrate⟩ | ⟨hp, hpar, hrate⟩
  · subst hpar
    subst hrate
    by_cases hhi : d.scanPerformance > 8 / 10
    · refine ⟨fun _ => ⟨?_, ?_⟩, fun hlo => absurd hlo (by linarith),
        fun _ hmid => absurd hhi (by linarith), ?_⟩
      · simp [updateNetworkProfile, hp, hhi]
      · simp [updateNetworkProfile, hp, hhi]
      · intro p' h hp1 hp100 hr10
        simp [updateNetworkProfile, hp, hhi] at h
        rw [← h]
        exact ⟨(bounds_par_hi _ hp1).1, (bounds_par_hi _ hp1).2,
          bounds_rate_hi _⟩
    · by_cases hlo : d.scanPerformance < 5 / 10
      · refine ⟨fun h => absurd h hhi, fun _ => ⟨?_, ?_⟩,
          fun hmid _ => absurd hlo (by linarith), ?_⟩
        · simp [updateNetworkProfile, hp, hhi, hlo]
        · simp [updateNetworkProfile, hp, hhi, hlo]
        · intro p' h hp1 hp100 hr10
          simp [updateNetworkProfile, hp, hhi, hlo] at h
          rw [← h]
          exact ⟨(bounds_par_lo _ hp100).1, (bounds_par_lo _ hp100).2,
            bounds_rate_lo _ hr10⟩
      · refine ⟨fun h => absurd h hhi, fun h => absurd h hlo,
          fun _ _ => ⟨?_, ?_⟩, ?_⟩
        · simp [updateNetworkProfile, hp, hhi, hlo]
        · simp [updateNetworkProfile, hp, hhi, hlo]
        · intro p' h hp1 hp100 hr10
          simp [updateNetworkProfile, hp, hhi, hlo] at h
          rw [← h]
          exact ⟨hp1, hp100, hr10⟩
  · subst hpar
    subst hrate
    by_cases hhi : d.scanPerformance > 8 / 10
    · refine ⟨fun _ => ⟨?_, ?_⟩, fun hlo => absurd hlo (by linarith),
        fun _ hmid => absurd hhi (by linarith), ?_⟩
      · simp [updateNetworkProfile, hp, hhi]
      · simp [updateNetworkProfile, hp, hhi]
      · intro p' h hp1 hp100 hr10
        simp [updateNetworkProfile, hp, hhi] at h
        rw [← h]
        exact ⟨(bounds_par_hi _ hp1).1, (bounds_par_hi _ hp1).2,
          bounds_rate_hi _⟩
    · by_cases hlo : d.scanPerformance < 5 / 10
      · refine ⟨fun h => absurd h hhi, fun _ => ⟨?_, ?_⟩,
          fun hmid _ => absurd hlo (by linarith), ?_⟩
        · simp [updateNetworkProfile, hp, hhi, hlo]
        · simp [updateNetworkProfile, hp, hhi, hlo]
        · intro p' h hp1 hp100 hr10
          simp [updateNetworkProfile, hp, hhi, hlo] at h
          rw [← h]
          exact ⟨(bounds_par_lo _ hp100).1, (bounds_par_lo _ hp100).2,
            bounds_rate_lo _ hr10⟩
      · refine ⟨fun h => absurd h hhi, fun h => absurd h hlo,
          fun _ _ => ⟨?_, ?_⟩, ?_⟩
        · simp [updateNetworkProfile, hp, hhi, hlo]
        · simp [updateNetworkProfile, hp, hhi, hlo]
        · intro p' h hp1 hp100 hr10
          simp [updateNetworkProfile, hp, hhi, hlo] at h
          rw [← h]
          exact ⟨hp1, hp100, hr10⟩

/-- C3 witness: the amended update applied, first, to the concrete
PrivateLAN profile (parallelism 50, rate limit 100) and a scan with
performance 0.4 — the stored profile has parallelism 45 = ⌊50 · 0.9⌋ and
rate limit 120 = ⌊100 · 1.2⌋, inside the documented ranges; and second,
to an empty profile map and a middle-band scan (performance 0.6) that
used parallelism 50 and rate limit 100 — the created profile stores
exactly those inherited values. -/
theorem network_profile_update_amended_witness :
    (updateNetworkProfile 1 lanProfiles lanScanLowPerf .PrivateLAN).map
      NetworkProfile.optimalParallelism = some 45 ∧
    (updateNetworkProfile 1 lanProfiles lanScanLowPerf .PrivateLAN).map
      NetworkProfile.optimalRateLimit = some 120 ∧
    (updateNetworkProfile 1 (fun _ => none) lanScanMidPerf .PrivateLAN).map
      NetworkProfile.optimalParallelism = some 50 ∧
    (updateNetworkProfile 1 (fun _ => none) lanScanMidPerf .PrivateLAN).map
      NetworkProfile.optimalRateLimit = some 100 ∧
    (1 ≤ (45 : Nat) ∧ (45 : Nat) ≤ 100 ∧ 10 ≤ (120 : Nat)) := by
  obtain ⟨_, hlo, _, _⟩ :=
    network_profile_update_amended 1 lanProfiles lanScanLowPerf 50 100
      (Or.inl ⟨lanProfile50, by simp [lanProfiles, lanScanLowPerf], rfl, rfl⟩)
  have hb := hlo (by norm_num [lanScanLowPerf])
  simp only [show lanScanLowPerf.networkType = NetworkType.PrivateLAN from rfl]
    at hb
  obtain ⟨_, _, hmid, _⟩ :=
    network_profile_update_amended 1 (fun _ => none) lanScanMidPerf 50 100
      (Or.inr ⟨rfl, rfl, rfl⟩)
  have hm := hmid (by norm_num [lanScanMidPerf]) (by norm_num [lanScanMidPerf])
  simp only [show lanScanMidPerf.networkType = NetworkType.PrivateLAN from rfl]
    at hm
  have hpar : (((50 : Nat) : ℚ)) * (9 / 10) ⊔ 1 = ((45 : Nat) : ℚ) := by
    rw [max_eq_left (by norm_num)]
    norm_num
  have hrate : (((100 : Nat) : ℚ)) * (12 / 10) = ((120 : Nat) : ℚ) := by
    norm_num
  refine ⟨?_, ?_, hm.1, hm.2, by norm_num⟩
  · rw [hb.1, hpar, f64ToU16_natCast 45 (by norm_num)]
  · rw [hb.2, hrate, f64ToU64_natCast 120 (by norm_num)]

/-- C4: `get_optimal_params(ip)`: when a profile exists for the network
class of `ip`, the returned timeout equals 3 × the profile's EWMA average
response time converted by Rust's saturating `as u64` cast (truncation
into the representable range — the only clamping the code applies), with
rate limit and parallelism taken from the profile; when no profile exists
it returns exactly the hard-coded defaults per network type — Localhost
200 ms / 10 / 100, PrivateLAN 500 / 50 / 50, PublicInternet
2000 / 200 / 20, Cloud 1000 / 100 / 30. -/
theorem get_optimal_params_spec (now : Nat)
    (profiles : NetworkType → Option NetworkProfile)
    (intelEntries : List PortIntelligence) (ip : IpAddr) :
    (∀ p, profiles (classifyNetwork ip) = some p →
      getOptimalParams now profiles intelEntries ip =
        { timeoutMs := f64ToU64 (p.avgResponseTime * 3)
          rateLimit := p.optimalRateLimit
          parallelism := p.optimalParallelism
          suggestedPorts :=
            getSmartPortList now intelEntries (classifyNetwork ip)
          networkType := classifyNetwork ip }) ∧
    (profiles (classifyNetwork ip) = none →
      getOptimalParams now profiles intelEntries ip =
        OptimalScanParams.defaultForNetwork (classifyNetwork ip)) ∧
    ((OptimalScanParams.defaultForNetwork .LocalHost).timeoutMs = 200 ∧
      (OptimalScanParams.defaultForNetwork .LocalHost).rateLimit = 10 ∧
      (OptimalScanParams.defaultForNetwork .LocalHost).parallelism = 100) ∧
    ((OptimalScanParams.defaultForNetwork .PrivateLAN).timeoutMs = 500 ∧
      (OptimalScanParams.defaultForNetwork .PrivateLAN).rateLimit = 50 ∧
      (OptimalScanParams.defaultForNetwork .PrivateLAN).parallelism = 50) ∧
    ((OptimalScanParams.defaultForNetwork .PublicInternet).timeoutMs = 2000 ∧
      (OptimalScanParams.defaultForNetwork .PublicInternet).rateLimit = 200 ∧
      (OptimalScanParams.defaultForNetwork .PublicInternet).parallelism = 20) ∧
    ((OptimalScanParams.defaultForNetwork .CloudProvider).timeoutMs = 1000 ∧
      (OptimalScanParams.defaultForNetwork .CloudProvider).rateLimit = 100 ∧
      (OptimalScanParams.defaultForNetwork .CloudProvider).parallelism = 30) := by
  refine ⟨?_, ?_, by decide, by decide, by decide, by decide⟩
  · intro p hp
    simp [getOptimalParams, hp]
  · intro hp
    simp [getOptimalParams, hp]

/-- C4 witness: with no profiles, a public-internet address (8.8.8.8)
receives exactly the PublicInternet defaults; with the concrete LAN
profile stored, 192.168.1.1 receives the profile's rate limit 100 and
parallelism 50 and the cast timeout 3 × avg_response_time. -/
theorem get_optimal_params_spec_witness :
    getOptimalParams 0 (fun _ => none) [] (IpAddr.v4 8 8 8 8) =
      OptimalScanParams.defaultForNetwork .PublicInternet ∧
    getOptimalParams 0 lanProfiles [] (IpAddr.v4 192 168 1 1) =
      { timeoutMs := f64ToU64 (lanProfile50.avgResponseTime * 3)
        rateLimit := lanProfile50.optimalRateLimit
        parallelism := lanProfile50.optimalParallelism
        suggestedPorts := getSmartPortList 0 [] .PrivateLAN
        networkType := .PrivateLAN } := by
  constructor
  · exact (get_optimal_params_spec 0 (fun _ => none) []
      (IpAddr.v4 8 8 8 8)).2.1 rfl
  · exact (get_optimal_params_spec 0 lanProfiles []
      (IpAddr.v4 192 168 1 1)).1 lanProfile50 (by rfl)

/-- C5 counterexample: a single host scanned by `scan()` starting from
the empty adaptive store: the host task's learning update (which raises
global total_scans to 1) is applied to the task-local clone only; the
engine-owned store after `scan()` still has total_scans = 0, whereas the
spec's reduced store would have 1 — the host's update is absent from the
store the engine holds. -/
theorem scan_store_reduction_counterexample :
    (scanStoreDataflow 7
      { networkProfiles := fun _ => none, portIntelligence := fun _ => none
        hostIntelligence := fun _ => none
        globalStats :=
          { totalScans := 0, totalPortsFound := 0, totalHostsScanned := 0
            successRate := 0, avgScanTime := 0, mostCommonPorts := [] } }
      [lanScanLowPerf]).1.globalStats.totalScans = 0 ∧
    (scanStoreReducedSpec 7
      { networkProfiles := fun _ => none, portIntelligence := fun _ => none
        hostIntelligence := fun _ => none
        globalStats :=
          { totalScans := 0, totalPortsFound := 0, totalHostsScanned := 0
            successRate := 0, avgScanTime := 0, mostCommonPorts := [] } }
      [lanScanLowPerf]).globalStats.totalScans = 1 ∧ (0 : Nat) ≠ 1 := by
  refine ⟨rfl, ?_, by decide⟩
  simp [scanStoreReducedSpec, learnFromScan, updateGlobalStats]

/-- C5 (amended): per-host tasks receive by-value snapshots of the
adaptive store, all cloned from the engine's store as it was before any
host ran, and each host's learning update is applied only to its own
task-local snapshot (whose global scan total it increments); the
engine-owned store after `scan()` completes is unchanged — no per-host
update is reduced back into it (updates reach persistence only through
each task's own save, last writer winning). -/
theorem scan_store_dataflow_amended (now : Nat) (s : AdaptiveLearning)
    (hostData : List ScanLearningData) :
    (scanStoreDataflow now s hostData).1 = s ∧
    (scanStoreDataflow now s hostData).1.globalStats.totalScans =
      s.globalStats.totalScans ∧
    (scanStoreDataflow now s hostData).2 =
      hostData.map (learnFromScan now s) ∧
    (∀ d ∈ hostData, (learnFromScan now s d).globalStats.totalScans =
      s.globalStats.totalScans + 1 ∧
      learnFromScan now s d ∈ (scanStoreDataflow now s hostData).2) := by
  refine ⟨rfl, rfl, rfl, ?_⟩
  intro d hd
  constructor
  · simp [learnFromScan, updateGlobalStats]
  · simp [scanStoreDataflow]
    exact ⟨d, hd, rfl⟩

/-- C5 witness: the amended dataflow at a concrete store and one host's
scan data: the engine store keeps total_scans 0 while the host task's
final store reports 1. -/
theorem scan_store_dataflow_amended_witness :
    (scanStoreDataflow 7
      { networkProfiles := fun _ => none, portIntelligence := fun _ => none
        hostIntelligence := fun _ => none
        globalStats :=
          { totalScans := 0, totalPortsFound := 0, totalHostsScanned := 0
            successRate := 0, avgScanTime := 0, mostCommonPorts := [] } }
      [lanScanLowPerf]).1.globalStats.totalScans = 0 ∧
    (learnFromScan 7
      { networkProfiles := fun _ => none, portIntelligence := fun _ => none
        hostIntelligence := fun _ => none
        globalStats :=
          { totalScans := 0, totalPortsFound := 0, totalHostsScanned := 0
            successRate := 0, avgScanTime := 0, mostCommonPorts := [] } }
      lanScanLowPerf).globalStats.totalScans = 1 := by
  constructor
  · exact (scan_store_dataflow_amended 7 _ [lanScanLowPerf]).2.1
  · exact ((scan_store_dataflow_amended 7 _ [lanScanLowPerf]).2.2.2
      lanScanLowPerf (by simp)).1

/-- C6 counterexample: with a 1000 ms timeout, a first attempt failing
with a non-refusal error followed by a retry failing with a non-refusal
error returns Closed with the retry budgeted at the full 1000 ms — the
claim's connect-scan rules demand Filtered for a non-refusal failure, and
the retry budget is the full original timeout, not the remaining one. -/
theorem fast_connect_counterexample :
    fastConnectScan 1000 .otherErr .otherErr = (.Closed, [300, 1000]) ∧
    PortStatus.Closed ≠ PortStatus.Filtered := by
  constructor
  · rfl
  · decide

/-- C6 (amended): fast_connect probing of (target, port, timeout): the
first connection attempt uses min(timeout, 300 ms); a refused first
attempt returns Closed; any other first-attempt error triggers exactly
one retry with the FULL original timeout; a first-attempt timeout
triggers one more attempt with timeout − 300 ms (saturating); on either
second attempt, success → Open, timeout → Filtered, and ANY error —
refusal or not — → Closed. -/
theorem fast_connect_scan_spec (t : Nat) (o2 : ConnOutcome) :
    (∀ o, fastConnectScan t .ok o = (.Open, [min t 300])) ∧
    (∀ o, fastConnectScan t .refused o = (.Closed, [min t 300])) ∧
    fastConnectScan t .otherErr .ok = (.Open, [min t 300, t]) ∧
    fastConnectScan t .otherErr .timedOut = (.Filtered, [min t 300, t]) ∧
    (o2 = .refused ∨ o2 = .otherErr →
      fastConnectScan t .otherErr o2 = (.Closed, [min t 300, t]) ∧
      fastConnectScan t .timedOut o2 = (.Closed, [min t 300, t - 300])) ∧
    fastConnectScan t .timedOut .ok = (.Open, [min t 300, t - 300]) ∧
    fastConnectScan t .timedOut .timedOut =
      (.Filtered, [min t 300, t - 300]) := by
  refine ⟨fun o => rfl, fun o => rfl, rfl, rfl, ?_, rfl, rfl⟩
  rintro (rfl | rfl) <;> exact ⟨rfl, rfl⟩

/-- C6 witness: the amended contract at timeout 1000 ms and a refused
second attempt: budgets are 300 then 1000 for an error path, 300 then 700
for a timeout path, with Closed as the retry-failure status. -/
theorem fast_connect_scan_spec_witness :
    fastConnectScan 1000 .ok .ok = (.Open, [300]) ∧
    fastConnectScan 1000 .refused .ok = (.Closed, [300]) ∧
    fastConnectScan 1000 .otherErr .refused = (.Closed, [300, 1000]) ∧
    fastConnectScan 1000 .timedOut .refused = (.Closed, [300, 700]) ∧
    fastConnectScan 1000 .timedOut .timedOut = (.Filtered, [300, 700]) := by
  refine ⟨?_, ?_, ?_, ?_, ?_⟩
  · exact (fast_connect_scan_spec 1000 .ok).1 .ok
  · exact (fast_connect_scan_spec 1000 .ok).2.1 .ok
  · exact ((fast_connect_scan_spec 1000 .refused).2.2.2.2.1
      (Or.inl rfl)).1
  · exact ((fast_connect_scan_spec 1000 .refused).2.2.2.2.1
      (Or.inl rfl)).2
  · exact (fast_connect_scan_spec 1000 .ok).2.2.2.2.2.2

/-- C7: when elevated privilege is unavailable, a SYN scan of any
(target, port) degrades transparently to a plain connect scan, returning
exactly that scan's status for every connection outcome, while FIN, XMAS
and NULL scans return `PortStatus::Error` for every port and every
raw-layer outcome — still an ordinary status value, so the overall scan
completes with a result for every port. -/
theorem unprivileged_scan_fallback (co : ConnOutcome)
    (raw : Except Unit PortStatus) :
    synScan false co raw = connectScan co ∧
    finScan false raw = .Error ∧
    xmasScan false raw = .Error ∧
    nullScan false raw = .Error := by
  exact ⟨rfl, rfl, rfl, rfl⟩

/-- C8 counterexample: the range 0.0.0.0–0.0.39.16 (u32 values 0 and
10000) contains 10001 addresses, more than 10,000, yet `parse_ip_range`
accepts it: the code rejects only when end − start > 10000, an off-by-one
against the claim's "at most 10,000 addresses". -/
theorem ip_range_size_counterexample :
    parseIpRange 0 10000 = .ok (List.range' 0 10001) ∧
    (List.range' 0 10001).length = 10001 ∧ 10001 > 10000 := by
  refine ⟨rfl, by simp, by decide⟩

/-- C8 (amended): for every IPv4 range atom with start ≤ end (as u32
values), `parse_ip_range` succeeds exactly when the range contains at
most 10,001 addresses (end − start ≤ 10000), and then yields exactly the
inclusive enumeration; a larger range makes the whole `parse_targets`
call return an error — no partial target list is produced, whatever
other atoms surround the range. -/
theorem ip_range_parse_spec (s e : Nat) (hse : s ≤ e) :
    ((parseIpRange s e).isOk = true ↔ e - s + 1 ≤ 10001) ∧
    (∀ l, parseIpRange s e = .ok l → l.length = e - s + 1 ∧
      l = List.range' s (e - s + 1)) ∧
    (e - s + 1 > 10001 → ∀ pre post : List TargetAtom,
      (parseTargets (pre ++ TargetAtom.range s e :: post)).isOk = false) := by
  refine ⟨?_, ?_, ?_⟩
  · unfold parseIpRange
    rw [if_neg (by omega)]
    by_cases h : e - s > 10000
    · rw [if_pos h]
      simp [Except.isOk, Except.toBool, Bind.bind, Except.bind]
      omega
    · rw [if_neg h]
      simp [Except.isOk, Except.toBool, Bind.bind, Except.bind]
      omega
  · intro l hl
    unfold parseIpRange at hl
    rw [if_neg (by omega)] at hl
    by_cases h : e - s > 10000
    · rw [if_pos h] at hl
      exact absurd hl (by simp)
    · rw [if_neg h] at hl
      obtain rfl : List.range' s (e - s + 1) = l := by simpa using hl
      simp
  · intro hbig pre post
    have herr : (parseIpRange s e).isOk = false := by
      unfold parseIpRange
      rw [if_neg (by omega), if_pos (by omega)]
      simp [Except.isOk, Except.toBool, Bind.bind, Except.bind]
    have haux : ∀ pre' : List TargetAtom,
        (parseTargetsAux (pre' ++ TargetAtom.range s e :: post)).isOk =
          false := by
      intro pre'
      induction pre' with
      | nil =>
        simp only [List.nil_append, parseTargetsAux, parseAtom]
        cases hp : parseIpRange s e with
        | error msg => simp [hp, Except.isOk, Except.toBool, Bind.bind, Except.bind]
        | ok l => rw [hp] at herr; simp [Except.isOk, Except.toBool, Bind.bind, Except.bind] at herr
      | cons a rest ih =>
        simp only [List.cons_append, parseTargetsAux]
        cases ha : parseAtom a with
        | error msg => simp [Except.isOk, Except.toBool, Bind.bind, Except.bind]
        | ok l =>
          cases hr : parseTargetsAux (rest ++ TargetAtom.range s e :: post) with
          | error msg => simp [Except.isOk, Except.toBool, Bind.bind, Except.bind]
          | ok l2 => rw [hr] at ih; simp [Except.isOk, Except.toBool, Bind.bind, Except.bind] at ih
    unfold parseTargets
    cases hr : parseTargetsAux (pre ++ TargetAtom.range s e :: post) with
    | error msg => simp [Except.isOk, Except.toBool, Bind.bind, Except.bind]
    | ok l =>
      have := haux pre
      rw [hr] at this
      simp [Except.isOk, Except.toBool, Bind.bind, Except.bind] at this

/-- C8 witness: the range 10.0.0.0–10.0.0.2 (three addresses) parses to
its enumeration, while a 20,001-address range makes the surrounding
`parse_targets` call fail even with a valid single-address atom before
it. -/
theorem ip_range_parse_spec_witness :
    (parseIpRange 167772160 167772162).isOk = true ∧
    (parseTargets [TargetAtom.single 1,
      TargetAtom.range 167772160 167792160]).isOk = false := by
  constructor
  · exact (ip_range_parse_spec 167772160 167772162 (by norm_num)).1.mpr
      (by norm_num)
  · exact (ip_range_parse_spec 167772160 167792160 (by norm_num)).2.2
      (by norm_num) [TargetAtom.single 1] []

theorem updatePortIntelOne_preserves (now : Nat)
    (m : Nat → Option PortIntelligence) (r : PortScanResult) (p : Nat)
    (i : PortIntelligence) (hm : m p = some i) :
    ∃ i', updatePortIntelOne now m r p = some i' ∧
      (0 ≤ i.successRate → i.successRate ≤ 1 →
        i.successRate ≤ i'.successRate ∧ i'.successRate ≤ 1) := by
  by_cases hp : p = r.port
  · subst hp
    cases hopen : r.isOpen
    · refine ⟨i, ?_, fun _ h1 => ⟨le_refl _, h1⟩⟩
      simp [updatePortIntelOne, hm, hopen]
    · refine ⟨{ i with
        foundCount := i.foundCount + 1
        lastSeen := now
        successRate := i.successRate *
            (1 - 1 / (((i.foundCount + 1 : Nat) : ℚ) + 1)) +
          1 / (((i.foundCount + 1 : Nat) : ℚ) + 1)
        avgResponseTime := (match r.responseTime with
          | some rt => i.avgResponseTime * (8 / 10) + rt * (2 / 10)
          | none => i.avgResponseTime) }, ?_, ?_⟩
      · simp [updatePortIntelOne, hm, hopen]
      · intro h0 h1
        dsimp only
        have hb : (0 : ℚ) < ((i.foundCount + 1 : Nat) : ℚ) + 1 := by positivity
        have hα0 : (0 : ℚ) < 1 / (((i.foundCount + 1 : Nat) : ℚ) + 1) := by
          positivity
        have hα1 : 1 / (((i.foundCount + 1 : Nat) : ℚ) + 1) ≤ 1 := by
          rw [div_le_one hb]
          have hc : (0 : ℚ) ≤ ((i.foundCount + 1 : Nat) : ℚ) :=
            Nat.cast_nonneg _
          linarith
        constructor
        · nlinarith [mul_nonneg (le_of_lt hα0) (sub_nonneg.mpr h1)]
        · nlinarith [mul_nonneg (sub_nonneg.mpr h1) (sub_nonneg.mpr hα1)]
  · refine ⟨i, ?_, fun _ h1 => ⟨le_refl _, h1⟩⟩
    simp [updatePortIntelOne, hp, hm]

theorem updatePortIntel_fold_preserves (now : Nat)
    (rs : List PortScanResult) (m : Nat → Option PortIntelligence) (p : Nat)
    (i : PortIntelligence) (hm : m p = some i) :
    ∃ i', (rs.foldl (updatePortIntelOne now) m) p = some i' ∧
      (0 ≤ i.successRate → i.successRate ≤ 1 →
        i.successRate ≤ i'.successRate ∧ i'.successRate ≤ 1) := by
  induction rs generalizing m i with
  | nil => exact ⟨i, hm, fun _ h1 => ⟨le_refl _, h1⟩⟩
  | cons r rest ih =>
    obtain ⟨i1, h1, hb1⟩ := updatePortIntelOne_preserves now m r p i hm
    obtain ⟨i2, h2, hb2⟩ := ih (updatePortIntelOne now m r) i1 h1
    refine ⟨i2, h2, ?_⟩
    intro h0 h1'
    obtain ⟨hb1a, hb1b⟩ := hb1 h0 h1'
    obtain ⟨hb2a, hb2b⟩ := hb2 (le_trans h0 hb1a) hb1b
    exact ⟨le_trans hb1a hb2a, hb2b⟩

theorem learn_fold_rate_preserves (now : Nat) (ds : List ScanLearningData)
    (s : AdaptiveLearning) (p : Nat) (i : PortIntelligence)
    (hm : s.portIntelligence p = some i) :
    ∃ i', (ds.foldl (learnFromScan now) s).portIntelligence p = some i' ∧
      (0 ≤ i.successRate → i.successRate ≤ 1 →
        i.successRate ≤ i'.successRate ∧ i'.successRate ≤ 1) := by
  induction ds generalizing s i with
  | nil => exact ⟨i, hm, fun _ h1 => ⟨le_refl _, h1⟩⟩
  | cons d rest ih =>
    obtain ⟨i1, h1, hb1⟩ :=
      updatePortIntel_fold_preserves now d.portResults s.portIntelligence p i hm
    obtain ⟨i2, h2, hb2⟩ := ih (learnFromScan now s d) i1 h1
    refine ⟨i2, h2, ?_⟩
    intro h0 h1'
    obtain ⟨hb1a, hb1b⟩ := hb1 h0 h1'
    obtain ⟨hb2a, hb2b⟩ := hb2 (le_trans h0 hb1a) hb1b
    exact ⟨le_trans hb1a hb2a, hb2b⟩

theorem updatePortIntel_fold_nonopen (now : Nat)
    (rs : List PortScanResult) (m : Nat → Option PortIntelligence) (p : Nat)
    (i : PortIntelligence) (hm : m p = some i)
    (hno : ∀ r ∈ rs, r.port = p → r.isOpen = false) :
    (rs.foldl (updatePortIntelOne now) m) p = some i := by
  induction rs generalizing m with
  | nil => exact hm
  | cons r rest ih =>
    have hstep : updatePortIntelOne now m r p = some i := by
      by_cases hp : p = r.port
      · have hopen : r.isOpen = false := hno r (by simp) hp.symm
        have hm' : m r.port = some i := hp ▸ hm
        simp [updatePortIntelOne, hm', hopen, hp]
      · simp [updatePortIntelOne, hp, hm]
    exact ih (updatePortIntelOne now m r) hstep
      (fun r' hr' => hno r' (by simp [hr']))

/-- C9: under `learn_from_scan`, a port's success_rate is modified only for
ports observed open in that scan (an existing entry at a port with no open
observation is left exactly as it was); each open observation maps the
rate r to r·(1−α) + α where α = 1/(found_count + 1) for the
already-incremented found_count, and α ∈ (0, 1]; consequently, across any
sequence of learn updates, a port's success_rate never decreases and stays
in [0, 1] whenever it starts in [0, 1]. -/
theorem port_success_rate_learning (now : Nat) :
    (∀ (m : Nat → Option PortIntelligence) (d : ScanLearningData) (p : Nat)
        (i : PortIntelligence), m p = some i →
        (∀ r ∈ d.portResults, r.port = p → r.isOpen = false) →
        updatePortIntelligence now m d p = some i) ∧
    (∀ (m : Nat → Option PortIntelligence) (r : PortScanResult)
        (i : PortIntelligence), r.isOpen = true → m r.port = some i →
        (0 : ℚ) < 1 / (((i.foundCount + 1 : Nat) : ℚ) + 1) ∧
        1 / (((i.foundCount + 1 : Nat) : ℚ) + 1) ≤ 1 ∧
        (updatePortIntelOne now m r r.port).map PortIntelligence.foundCount =
          some (i.foundCount + 1) ∧
        (updatePortIntelOne now m r r.port).map PortIntelligence.successRate =
          some (i.successRate *
              (1 - 1 / (((i.foundCount + 1 : Nat) : ℚ) + 1)) +
            1 / (((i.foundCount + 1 : Nat) : ℚ) + 1))) ∧
    (∀ (ds : List ScanLearningData) (s : AdaptiveLearning) (p : Nat)
        (i : PortIntelligence), s.portIntelligence p = some i →
        0 ≤ i.successRate → i.successRate ≤ 1 →
        ∃ i', (ds.foldl (learnFromScan now) s).portIntelligence p = some i' ∧
          i.successRate ≤ i'.successRate ∧ 0 ≤ i'.successRate ∧
          i'.successRate ≤ 1) := by
  refine ⟨?_, ?_, ?_⟩
  · intro m d p i hm hno
    exact updatePortIntel_fold_nonopen now d.portResults m p i hm hno
  · intro m r i hopen hm
    have hb : (0 : ℚ) < ((i.foundCount + 1 : Nat) : ℚ) + 1 := by positivity
    refine ⟨by positivity, ?_, ?_, ?_⟩
    · rw [div_le_one hb]
      have hc : (0 : ℚ) ≤ ((i.foundCount + 1 : Nat) : ℚ) := Nat.cast_nonneg _
      linarith
    · simp [updatePortIntelOne, hm, hopen]
    · simp [updatePortIntelOne, hm, hopen]
  · intro ds s p i hm h0 h1
    obtain ⟨i', h, himp⟩ := learn_fold_rate_preserves now ds s p i hm
    obtain ⟨hmono, hle⟩ := himp h0 h1
    exact ⟨i', h, hmono, le_trans h0 hmono, hle⟩

/-- C9 witness: the entry for port 80 (found_count 0, rate 0.5) observed
open once moves to rate 0.75 = 0.5·(1 − 1/2) + 1/2 with found_count 1; a
learn update whose scan saw no port-80 result leaves the entry untouched;
and folding a learn update over the store keeps the port-80 entry
present. -/
theorem port_success_rate_learning_witness :
    updatePortIntelligence 5 port80Map lanScanLowPerf 80 = some port80Intel ∧
    (updatePortIntelOne 5 port80Map openPort80 80).map
      PortIntelligence.foundCount = some 1 ∧
    (updatePortIntelOne 5 port80Map openPort80 80).map
      PortIntelligence.successRate = some (3 / 4) ∧
    (([lanScanLowPerf].foldl (learnFromScan 5)
      port80Store).portIntelligence 80).isSome = true := by
  obtain ⟨ha, hb, hc⟩ := port_success_rate_learning 5
  have hm : port80Map 80 = some port80Intel := by simp [port80Map]
  have hmr : port80Map openPort80.port = some port80Intel := hm
  obtain ⟨_, _, hfc, hsr⟩ := hb port80Map openPort80 port80Intel rfl hmr
  simp only [show openPort80.port = 80 from rfl] at hfc hsr
  refine ⟨?_, hfc, ?_, ?_⟩
  · exact ha port80Map lanScanLowPerf 80 port80Intel hm
      (by simp [lanScanLowPerf])
  · rw [hsr]
    norm_num [port80Intel]
  · obtain ⟨i', h, _, _, _⟩ := hc [lanScanLowPerf] port80Store 80 port80Intel
      (by simp [port80Store, port80Map]) (by norm_num [port80Intel])
      (by norm_num [port80Intel])
    rw [h]
    rfl

/-- C10: for the Connect technique the engine dispatches
`fast_connect_scan` exactly when `is_private_ip(target)` holds and
`connect_scan` otherwise; and `is_private_ip` accepts — besides the
RFC1918 ranges 10/8, 172.16/12 and 192.168/16 — IPv4 loopback 127.0.0.0/8
and link-local 169.254.0.0/16, as well as IPv6 loopback, fe80 link-local
and the fc00/fd00 unique-local first segments; so Connect scans of
localhost take the fast-connect path. -/
theorem connect_dispatch_private (b c d : Nat) (segs : List Nat) :
    (∀ ip, dispatchProbe .Connect ip = .fastConnectP ↔
      isPrivateIp ip = true) ∧
    (∀ ip, dispatchProbe .Connect ip = .connectP ↔ isPrivateIp ip = false) ∧
    isPrivateIp (.v4 10 b c d) = true ∧
    (16 ≤ b → b ≤ 31 → isPrivateIp (.v4 172 b c d) = true) ∧
    isPrivateIp (.v4 192 168 c d) = true ∧
    isPrivateIp (.v4 127 b c d) = true ∧
    isPrivateIp (.v4 169 254 c d) = true ∧
    isPrivateIp (.v6 [0, 0, 0, 0, 0, 0, 0, 1]) = true ∧
    isPrivateIp (.v6 (0xfe80 :: segs)) = true ∧
    isPrivateIp (.v6 (0xfc00 :: segs)) = true ∧
    isPrivateIp (.v6 (0xfd00 :: segs)) = true ∧
    dispatchProbe .Connect (.v4 127 0 0 1) = .fastConnectP := by
  refine ⟨?_, ?_, ?_, ?_, ?_, ?_, ?_, by decide, ?_, ?_, ?_, by decide⟩
  · intro ip
    cases h : isPrivateIp ip <;> simp [dispatchProbe, h]
  · intro ip
    cases h : isPrivateIp ip <;> simp [dispatchProbe, h]
  · simp [isPrivateIp]
  · intro h16 h31
    simp [isPrivateIp, h16, h31]
  · simp [isPrivateIp]
  · simp [isPrivateIp]
  · simp [isPrivateIp]
  · simp [isPrivateIp]
  · simp [isPrivateIp]
  · simp [isPrivateIp]

/-- C10 witness: the dispatch equivalences and range memberships at
concrete addresses — 172.20.0.5 is private (16 ≤ 20 ≤ 31), 8.8.8.8 takes
the plain connect path, and ::1 and fe80::1 take the fast path. -/
theorem connect_dispatch_private_witness :
    isPrivateIp (.v4 172 20 0 5) = true ∧
    dispatchProbe .Connect (.v4 8 8 8 8) = .connectP ∧
    dispatchProbe .Connect (.v6 [0, 0, 0, 0, 0, 0, 0, 1]) = .fastConnectP ∧
    dispatchProbe .Connect (.v6 [0xfe80, 0, 0, 0, 0, 0, 0, 1]) =
      .fastConnectP := by
  obtain ⟨hiff, hiff', _, h172, _⟩ :=
    connect_dispatch_private 20 0 5 [0, 0, 0, 0, 0, 0, 1]
  refine ⟨h172 (by norm_num) (by norm_num), ?_, ?_, ?_⟩
  · exact (hiff' (.v4 8 8 8 8)).mpr (by decide)
  · exact (hiff (.v6 [0, 0, 0, 0, 0, 0, 0, 1])).mpr (by decide)
  · exact (hiff (.v6 [0xfe80, 0, 0, 0, 0, 0, 0, 1])).mpr (by decide)

end PortScope
